import Mathlib

/-!
Shallow embedding of the shopping-assistant backend (`main.py`, `schemas.py`).

The document database is modelled as explicit lists of records (insertion
order preserved, as the driver iterates documents in natural order); the
global `db` handle is an `Option DB`.  Machine floats (prices, ratings,
budgets) are modelled as rationals; `datetime` values as natural numbers.
MongoDB case-insensitive `$regex` matching is modelled as case-insensitive
substring containment, which is its behaviour on query strings without
regex metacharacters.  Free-form `meta` dictionaries are modelled only to
the shape the chat endpoint writes (recommendation ids and reasons).
-/

/-- A seeded product document (collection `product`).  `oid` is the
`_id` document key rendered as a hex string. -/
structure Product where
  oid : String
  title : String
  description : String
  price : ℚ
  category : String
  in_stock : Bool
  image : String
  rating : ℚ
  features : List String
  retailers : List (String × ℚ × String)
  created_at : Nat
  updated_at : Nat
deriving DecidableEq

/-- The public rendering of a product: `to_public` replaces the `_id`
key with its string form under key `id`. -/
structure PubProduct where
  id : String
  title : String
  description : String
  price : ℚ
  category : String
  in_stock : Bool
  image : String
  rating : ℚ
  features : List String
  retailers : List (String × ℚ × String)
  created_at : Nat
  updated_at : Nat
deriving DecidableEq

/-- Embedding of `to_public` on a product document. -/
def toPublic (p : Product) : PubProduct :=
  { id := p.oid, title := p.title, description := p.description,
    price := p.price, category := p.category, in_stock := p.in_stock,
    image := p.image, rating := p.rating, features := p.features,
    retailers := p.retailers, created_at := p.created_at,
    updated_at := p.updated_at }

/-- A chat-session document (collection `chatsession`). -/
structure Session where
  oid : String
  title : String
  created_at : Nat
deriving DecidableEq

/-- A message document (collection `message`).  `meta` is a free-form
dictionary in the source; only the shape written by the chat endpoint
(recommendation id strings and reason strings) is modelled, and the
user message written by `chat` carries no `meta` key (`none`). -/
structure Message where
  session_id : String
  role : String
  content : String
  meta : Option (List String × List String)
  created_at : Nat
deriving DecidableEq

/-- A price-history document (collection `pricehistory`): a product key
and an ordered list of (date, price) points. -/
structure PriceHistoryRec where
  product_id : String
  history : List (Nat × ℚ)
deriving DecidableEq

/-- A wishlist document (collection `wishlist`). -/
structure WishlistRec where
  product_id : String
  user_email : Option String
  created_at : Nat
deriving DecidableEq

/-- A cart document (collection `cart`). -/
structure CartRec where
  product_id : String
  quantity : Int
  user_email : Option String
  created_at : Nat
deriving DecidableEq

/-- The six collections of the document store. -/
structure DB where
  sessions : List Session
  messages : List Message
  products : List Product
  pricehistory : List PriceHistoryRec
  wishlist : List WishlistRec
  cart : List CartRec
deriving DecidableEq

/-- The empty document store. -/
def emptyDB : DB := ⟨[], [], [], [], [], []⟩

/-- Request body of `POST /api/sessions`. -/
structure CreateSession where
  title : String
deriving DecidableEq

/-- Request body of `POST /api/messages`; `role` is constrained by the
pydantic pattern to `user` or `assistant` at the endpoint boundary. -/
structure MessageIn where
  session_id : String
  role : String
  content : String
  meta : Option (List String × List String)
deriving DecidableEq

/-- Request body of `POST /api/wishlist`. -/
structure WishlistIn where
  product_id : String
  user_email : Option String
deriving DecidableEq

/-- Request body of `POST /api/cart`. -/
structure CartIn where
  product_id : String
  quantity : Int
  user_email : Option String
deriving DecidableEq

/-- Failures an endpoint can raise: an `HTTPException` with a status
code and detail, or the uncaught `bson` validation failure raised by
`ObjectId(...)` on a malformed identifier. -/
inductive ApiError where
  | http (code : Nat) (detail : String)
  | invalidId
deriving DecidableEq

/-- The `HTTPException(500, "Database not configured")` raised by every
mutating endpoint when the `db` handle is `None`. -/
def serverErr : ApiError := .http 500 "Database not configured"

/-- Hex-digit test used by `ObjectId.is_valid` on a 24-character string. -/
def isHexChar (c : Char) : Bool :=
  c.isDigit || ('a' ≤ c && c ≤ 'f') || ('A' ≤ c && c ≤ 'F')

/-- Embedding of `ObjectId.is_valid` on a string: 24 hex characters. -/
def isValidOid (s : String) : Bool :=
  s.length == 24 && s.data.all isHexChar

/-- The canonical form of an object id built from a valid hex string:
`ObjectId` comparisons are case-insensitive on the hex spelling. -/
def oidOf (s : String) : String := ⟨s.data.map Char.toLower⟩

/-- Whether the string `pre` starts the string `l` (character lists). -/
def startsList : List Char → List Char → Bool
  | [], _ => true
  | _ :: _, [] => false
  | a :: as, b :: bs => a == b && startsList as bs

/-- Whether the character list `n` occurs contiguously inside `hay`. -/
def occursIn (n : List Char) : List Char → Bool
  | [] => n.isEmpty
  | c :: cs => startsList n (c :: cs) || occursIn n cs

/-- Case-insensitive containment of `q` in `field`: the model of the
MongoDB filter `{field: {"$regex": q, "$options": "i"}}` for query
strings without regex metacharacters. -/
def containsCI (field q : String) : Bool :=
  occursIn (q.data.map Char.toLower) (field.data.map Char.toLower)

/-- The `$or` filter over `title`, `description`, `category` used by
both the search endpoint and the chat keyword search. -/
def textMatch (q : String) (p : Product) : Bool :=
  containsCI p.title q || containsCI p.description q || containsCI p.category q

/-- The descending-rating order used by `.sort("rating", -1)`. -/
def ratingGeRel (a b : Product) : Prop := b.rating ≤ a.rating

instance decRatingGeRel : DecidableRel ratingGeRel :=
  fun a b => inferInstanceAs (Decidable (b.rating ≤ a.rating))

instance totalRatingGeRel : IsTotal Product ratingGeRel :=
  ⟨fun a b => le_total b.rating a.rating⟩

instance transRatingGeRel : IsTrans Product ratingGeRel :=
  ⟨fun _ _ _ h1 h2 => le_trans h2 h1⟩

/-- Sort products by `rating` descending (`.sort("rating", -1)`); the
database's sort algorithm is unspecified, modelled by a stable sort. -/
def sortRatingDesc (l : List Product) : List Product :=
  l.insertionSort ratingGeRel

/-- Sort products by `price` ascending (`.sort("price", 1)`). -/
def sortPriceAsc (l : List Product) : List Product :=
  l.insertionSort (fun a b => a.price ≤ b.price)

/-- Sort products by `created_at` descending (`.sort("created_at", -1)`). -/
def sortCreatedDesc (l : List Product) : List Product :=
  l.insertionSort (fun a b => b.created_at ≤ a.created_at)

/-- Sort sessions by `created_at` descending. -/
def sortSessionsDesc (l : List Session) : List Session :=
  l.insertionSort (fun a b => b.created_at ≤ a.created_at)

/-- Sort messages by `created_at` ascending. -/
def sortMessagesAsc (l : List Message) : List Message :=
  l.insertionSort (fun a b => a.created_at ≤ b.created_at)

/-- Embedding of `query.replace(",", "")`. -/
def stripCommas (cs : List Char) : List Char := cs.filter (fun c => !(c == ','))

/-- Numeric value of a digit string, as `float(...)` parses `\d{2,5}`. -/
def digitsVal (cs : List Char) : Nat :=
  cs.foldl (fun a c => 10 * a + (c.toNat - '0'.toNat)) 0

/-- Scan for the leftmost match of the regex `\$(\d{2,5})`: at the first
position holding `$` followed by at least two digits, capture greedily
up to five following digits; otherwise advance one character. -/
def budgetDigits : List Char → Option (List Char)
  | [] => none
  | c :: cs =>
    let ds := (cs.takeWhile Char.isDigit).take 5
    if c == '$' && decide (2 ≤ ds.length) then some ds else budgetDigits cs

/-- Embedding of the budget extraction of the chat endpoint:
`re.search(r"\$(\d{2,5})", query.replace(",", ""))`, the captured
digits parsed with `float(...)`. -/
def extractBudget (q : String) : Option ℚ :=
  (budgetDigits (stripCommas q.data)).map (fun ds => (digitsVal ds : ℚ))

/-- The chat candidate set: keyword search over the three text fields
limited to 8, falling back to the 5 highest-rated products when empty
(`if not items: items = ...sort("rating", -1).limit(5)`). -/
def chatCandidates (s : DB) (q : String) : List Product :=
  let items := (s.products.filter (textMatch q)).take 8
  if items.isEmpty then (sortRatingDesc s.products).take 5 else items

/-- The budget step of the chat endpoint.  `if budget:` is Python
truthiness: `None` and `0.0` both skip the filter.  Under a truthy
budget, keep the products priced at or below it unless that set is
empty (`items = under or items`). -/
def applyBudget : Option ℚ → List Product → List Product
  | none, items => items
  | some b, items =>
    if b = 0 then items
    else
      let under := items.filter (fun p => decide (p.price ≤ b))
      if under.isEmpty then items else under

/-- The chat result set after the budget step. -/
def chatAfterBudget (s : DB) (q : String) : List Product :=
  applyBudget (extractBudget q) (chatCandidates s q)

/-- The constant assistant text returned by every chat call. -/
def assistantText : String :=
  "Here are a few options I think you\x27ll like. I\x27ve compared core specs, pricing across retailers, and highlighted why each stands out."

/-- The budget reason string `f"Fits your budget around ${int(budget)}"`. -/
def budgetReasonStr (b : ℚ) : String :=
  "Fits your budget around $" ++ toString b.floor

/-- The category reason string naming the distinct categories among the
recommendations (the Python `set` iteration order is modelled as
first-occurrence order). -/
def categoryReasonStr (recs : List Product) : String :=
  "Popular picks in " ++ String.intercalate ", " ((recs.map Product.category).dedup) ++ " with strong ratings"

/-- The reason list of the chat endpoint: a budget reason when the
budget is truthy, then a category reason when recommendations exist. -/
def chatReasons (b : Option ℚ) (recs : List Product) : List String :=
  (match b with
   | none => []
   | some v => if v = 0 then [] else [budgetReasonStr v]) ++
  (if recs.isEmpty then [] else [categoryReasonStr recs])

/-- Response body of `POST /api/chat`. -/
structure ChatResp where
  message : String
  reasons : List String
  products : List PubProduct
  compare_on : List String
deriving DecidableEq

/-- Body of the chat endpoint given the already-extracted budget `b`:
store the user message, search, fall back, budget-filter, take the
first 3, build reasons, store the assistant message, and answer. -/
def chatGiven (s : DB) (sid q : String) (b : Option ℚ) (now : Nat) : ChatResp × DB :=
  let userMsg : Message :=
    { session_id := sid, role := "user", content := q, meta := none, created_at := now }
  let s1 : DB := { s with messages := s.messages ++ [userMsg] }
  let items := chatCandidates s1 q
  let items2 := applyBudget b items
  let recs := items2.take 3
  let reasons := chatReasons b recs
  let asstMsg : Message :=
    { session_id := sid, role := "assistant", content := assistantText,
      meta := some (recs.map Product.oid, reasons), created_at := now }
  let s2 : DB := { s1 with messages := s1.messages ++ [asstMsg] }
  ({ message := assistantText, reasons := reasons,
     products := recs.map toPublic,
     compare_on := ["price", "rating", "key_features"] }, s2)

/-- Embedding of the `POST /api/chat` handler. -/
def chat_handler (db : Option DB) (sid q : String) (now : Nat) :
    Except ApiError (ChatResp × DB) :=
  match db with
  | none => .error serverErr
  | some s => .ok (chatGiven s sid q (extractBudget q) now)

/-- Simple status response `{"status": ...}`. -/
structure StatusResp where
  status : String
deriving DecidableEq

/-- Response of `POST /api/sessions`: the generated id plus the fields. -/
structure SessionResp where
  id : String
  title : String
  created_at : Nat
deriving DecidableEq

/-- Embedding of `POST /api/sessions`; `nid` is the `ObjectId` the
driver generates for the insert. -/
def create_session (db : Option DB) (p : CreateSession) (now : Nat) (nid : String) :
    Except ApiError (SessionResp × DB) :=
  match db with
  | none => .error serverErr
  | some s =>
    .ok ({ id := nid, title := p.title, created_at := now },
      { s with sessions := s.sessions ++ [⟨nid, p.title, now⟩] })

/-- Public rendering of a session document. -/
structure PubSession where
  id : String
  title : String
  created_at : Nat
deriving DecidableEq

/-- Embedding of `GET /api/sessions`. -/
def list_sessions (db : Option DB) (lim : Nat) : List PubSession :=
  match db with
  | none => []
  | some s => ((sortSessionsDesc s.sessions).take lim).map
      (fun c => { id := c.oid, title := c.title, created_at := c.created_at })

/-- Embedding of `GET /api/sessions/recent`: delegates to `list_sessions`. -/
def recent_sessions (db : Option DB) (lim : Nat) : List PubSession :=
  list_sessions db lim

/-- Public rendering of a message document. -/
structure PubMessage where
  session_id : String
  role : String
  content : String
  meta : Option (List String × List String)
  created_at : Nat
deriving DecidableEq

/-- Embedding of `GET /api/sessions/{session_id}/messages`. -/
def get_messages (db : Option DB) (sid : String) : List PubMessage :=
  match db with
  | none => []
  | some s => (sortMessagesAsc (s.messages.filter (fun m => m.session_id == sid))).map
      (fun m => { session_id := m.session_id, role := m.role, content := m.content,
                  meta := m.meta, created_at := m.created_at })

/-- Embedding of the `POST /api/messages` handler body (the pydantic
role-pattern validation happens at the endpoint boundary, before the
handler runs). -/
def post_message (db : Option DB) (m : MessageIn) (now : Nat) :
    Except ApiError (StatusResp × DB) :=
  match db with
  | none => .error serverErr
  | some s =>
    .ok ({ status := "ok" },
      { s with messages := s.messages ++
          [{ session_id := m.session_id, role := m.role, content := m.content,
             meta := some (m.meta.getD ([], [])), created_at := now }] })

/-- The pydantic pattern `^(user|assistant)$` on `MessageIn.role`. -/
def roleOk (r : String) : Bool := r == "user" || r == "assistant"

/-- Embedding of `GET /api/products/search`: the `$or` regex filter when
the query string is truthy (non-empty), everything otherwise. -/
def search_products (db : Option DB) (q : String) (lim : Nat) : List PubProduct :=
  match db with
  | none => []
  | some s =>
    ((if q = "" then s.products else s.products.filter (textMatch q)).take lim).map toPublic

/-- Embedding of `GET /api/products/trending`. -/
def trending_products (db : Option DB) (lim : Nat) : List PubProduct :=
  match db with
  | none => []
  | some s => ((sortRatingDesc s.products).take lim).map toPublic

/-- Embedding of `GET /api/products/essentials`. -/
def essentials_products (db : Option DB) (lim : Nat) : List PubProduct :=
  match db with
  | none => []
  | some s => ((sortPriceAsc s.products).take lim).map toPublic

/-- Embedding of `GET /api/products/favorites`. -/
def favorites_products (db : Option DB) (lim : Nat) : List PubProduct :=
  match db with
  | none => []
  | some s => ((sortCreatedDesc s.products).take lim).map toPublic

/-- Response of the price-history endpoint: the history points with
dates rendered as strings (`isoformat`, modelled by `toString`). -/
structure HistoryResp where
  history : List (String × ℚ)
deriving DecidableEq

/-- Embedding of `GET /api/products/{product_id}/price-history`: empty
object when the handle is `None`, `ObjectId` validation, `find_one` on
`product_id`, empty object when no record exists. -/
def price_history (db : Option DB) (pid : String) : Except ApiError HistoryResp :=
  match db with
  | none => .ok ⟨[]⟩
  | some s =>
    if isValidOid pid then
      match s.pricehistory.find? (fun r => r.product_id == oidOf pid) with
      | none => .ok ⟨[]⟩
      | some r => .ok ⟨r.history.map (fun e => (toString e.1, e.2))⟩
    else .error .invalidId

/-- Embedding of `POST /api/wishlist`: database check, then
`ObjectId(item.product_id)`, then a single insert. -/
def add_wishlist (db : Option DB) (w : WishlistIn) (now : Nat) :
    Except ApiError (StatusResp × DB) :=
  match db with
  | none => .error serverErr
  | some s =>
    if isValidOid w.product_id then
      .ok ({ status := "added" },
        { s with wishlist := s.wishlist ++ [⟨oidOf w.product_id, w.user_email, now⟩] })
    else .error .invalidId

/-- Embedding of `DELETE /api/wishlist/{product_id}`: `delete_many` of
every record whose `product_id` matches. -/
def remove_wishlist (db : Option DB) (pid : String) :
    Except ApiError (StatusResp × DB) :=
  match db with
  | none => .error serverErr
  | some s =>
    if isValidOid pid then
      .ok ({ status := "removed" },
        { s with wishlist := s.wishlist.filter (fun r => !(r.product_id == oidOf pid)) })
    else .error .invalidId

/-- Embedding of `POST /api/cart`. -/
def add_cart (db : Option DB) (c : CartIn) (now : Nat) :
    Except ApiError (StatusResp × DB) :=
  match db with
  | none => .error serverErr
  | some s =>
    if isValidOid c.product_id then
      .ok ({ status := "added" },
        { s with cart := s.cart ++ [⟨oidOf c.product_id, c.quantity, c.user_email, now⟩] })
    else .error .invalidId

/-- The regex `\$(\d{2,5})` matches at position `i` of the comma-stripped
character list: the character there is `$` and at least two digits follow. -/
def dollarAt (s : List Char) (i : Nat) : Prop :=
  s[i]? = some '$' ∧ 2 ≤ ((s.drop (i + 1)).takeWhile Char.isDigit).length

instance decDollarAt (s : List Char) (i : Nat) : Decidable (dollarAt s i) :=
  inferInstanceAs (Decidable (_ ∧ _))

/-- The digits the greedy group `(\d{2,5})` captures at a match
position: up to five leading digits after the `$`. -/
def capturedDigits (s : List Char) (i : Nat) : List Char :=
  ((s.drop (i + 1)).takeWhile Char.isDigit).take 5

/-- Follows the spec's words: strip commas, take the first (leftmost)
substring matching `$` followed by 2 to 5 digits, and parse the digits
as a number; `none` when no position matches. -/
def specBudget (q : String) : Option ℚ :=
  ((List.range (stripCommas q.data).length).find?
      (fun i => decide (dollarAt (stripCommas q.data) i))).map
    (fun i => (digitsVal (capturedDigits (stripCommas q.data) i) : ℚ))

/-- Follows the spec's words: "an unfiltered product listing", truncated
to the limit and rendered through `to_public`. -/
def productListingSpec (s : DB) (lim : Nat) : List PubProduct :=
  (s.products.take lim).map toPublic

/-- One API operation that can mutate the store, with the external
inputs (clock values and generated object ids) made explicit. -/
inductive Op where
  | opCreateSession (p : CreateSession) (now : Nat) (nid : String)
  | opPostMessage (m : MessageIn) (now : Nat)
  | opAddWishlist (w : WishlistIn) (now : Nat)
  | opRemoveWishlist (pid : String)
  | opAddCart (c : CartIn) (now : Nat)
  | opChat (sid q : String) (now : Nat)

/-- The store an endpoint call leaves behind: the new store on success,
the old one when the call raised. -/
def stateAfter {α : Type} (r : Except ApiError (α × DB)) (s : DB) : DB :=
  match r with
  | .ok (_, s2) => s2
  | .error _ => s

/-- Apply one operation to the store.  The pydantic pattern on
`MessageIn.role` runs at the endpoint boundary, so an invalid role never
reaches the `post_message` handler and leaves the store unchanged. -/
def applyOp (s : DB) : Op → DB
  | .opCreateSession p now nid => stateAfter (create_session (some s) p now nid) s
  | .opPostMessage m now =>
      if roleOk m.role then stateAfter (post_message (some s) m now) s else s
  | .opAddWishlist w now => stateAfter (add_wishlist (some s) w now) s
  | .opRemoveWishlist pid => stateAfter (remove_wishlist (some s) pid) s
  | .opAddCart c now => stateAfter (add_cart (some s) c now) s
  | .opChat sid q now => stateAfter (chat_handler (some s) sid q now) s

/-- Run a sequence of operations from a starting store. -/
def runOps (s : DB) (ops : List Op) : DB := ops.foldl applyOp s

/-- A concrete seeded product: a zero-priced giveaway. -/
def prodAlpha : Product :=
  { oid := "aaaaaaaaaaaaaaaaaaaaaaaa", title := "Alpha", description := "A freebie",
    price := 0, category := "Gadgets", in_stock := true, image := "img-a",
    rating := 4, features := ["Light"], retailers := [], created_at := 1, updated_at := 1 }

/-- A concrete seeded product priced at 100. -/
def prodBeta : Product :=
  { oid := "bbbbbbbbbbbbbbbbbbbbbbbb", title := "Beta", description := "A speaker",
    price := 100, category := "Audio", in_stock := true, image := "img-b",
    rating := 5, features := ["Loud"], retailers := [], created_at := 2, updated_at := 2 }

/-- A concrete store holding the two products and nothing else. -/
def exDB : DB := { emptyDB with products := [prodAlpha, prodBeta] }

/-- A concrete wishlist request for a valid object id. -/
def wlIn : WishlistIn := ⟨"0123456789abcdef01234567", none⟩

/-- The store after adding `wlIn` to the wishlist of `exDB`. -/
def wlMid : DB :=
  { exDB with wishlist := [⟨oidOf "0123456789abcdef01234567", none, 5⟩] }

/-- The store after then removing that product id again. -/
def wlFin : DB := { exDB with wishlist := [] }

/-- C5: with the database handle unavailable (`db is None`), every
mutating endpoint (create session, post message, add/remove wishlist,
add cart, chat) raises HTTP 500, and every read endpoint (list/recent
sessions, get messages, search/trending/essentials/favorites products,
price history) returns an empty result instead of an error. -/
theorem db_unavailable_behavior (cs : CreateSession) (m : MessageIn)
    (w : WishlistIn) (c : CartIn) (pid sid q nid : String) (now lim : Nat) :
    serverErr = ApiError.http 500 "Database not configured" ∧
    create_session none cs now nid = .error serverErr ∧
    post_message none m now = .error serverErr ∧
    add_wishlist none w now = .error serverErr ∧
    remove_wishlist none pid = .error serverErr ∧
    add_cart none c now = .error serverErr ∧
    chat_handler none sid q now = .error serverErr ∧
    list_sessions none lim = [] ∧
    recent_sessions none lim = [] ∧
    get_messages none sid = [] ∧
    search_products none q lim = [] ∧
    trending_products none lim = [] ∧
    essentials_products none lim = [] ∧
    favorites_products none lim = [] ∧
    price_history none pid = .ok ⟨[]⟩ :=
  ⟨rfl, rfl, rfl, rfl, rfl, rfl, rfl, rfl, rfl, rfl, rfl, rfl, rfl, rfl, rfl⟩

/-- C8: product search with the empty query string returns the same
result set as an unfiltered product listing truncated to the limit. -/
theorem search_empty_query (s : DB) (lim : Nat) :
    search_products (some s) "" lim = productListingSpec s lim := rfl

/-- C4: every chat response carries the first 3 of the post-filter
candidate set (hence at most 3 product records), the constant assistant
text, and the fixed comparison-field list. -/
theorem chat_response_shape (s : DB) (sid q : String) (now : Nat) :
    chat_handler (some s) sid q now = .ok (chatGiven s sid q (extractBudget q) now) ∧
    (chatGiven s sid q (extractBudget q) now).1.products =
      ((chatAfterBudget s q).take 3).map toPublic ∧
    (chatGiven s sid q (extractBudget q) now).1.products.length ≤ 3 ∧
    (chatGiven s sid q (extractBudget q) now).1.message = assistantText ∧
    (chatGiven s sid q (extractBudget q) now).1.compare_on =
      ["price", "rating", "key_features"] := by
  refine ⟨rfl, rfl, ?_, rfl, rfl⟩
  show (((chatAfterBudget s q).take 3).map toPublic).length ≤ 3
  rw [List.length_map]
  exact List.length_take_le 3 _

/-- C6: the price-history endpoint answers an empty history object for
every well-formed product id that has no price-history record, and
raises nothing. -/
theorem price_history_missing (s : DB) (pid : String)
    (hv : isValidOid pid = true)
    (hnone : ∀ r ∈ s.pricehistory, ¬ r.product_id = oidOf pid) :
    price_history (some s) pid = .ok ⟨[]⟩ := by
  have hfind : s.pricehistory.find? (fun r => r.product_id == oidOf pid) = none := by
    rw [List.find?_eq_none]
    intro r hr
    simpa using hnone r hr
  simp [price_history, hv, hfind]

/-- Witness for C6 at a concrete store and id. -/
theorem price_history_missing_witness :
    price_history (some exDB) "0123456789abcdef01234567" = .ok ⟨[]⟩ :=
  price_history_missing exDB "0123456789abcdef01234567" (by decide) (by decide)

/-- C7: adding a product id to the wishlist and then removing the same
product id leaves zero wishlist records matching that id, from any
starting wishlist state (`delete_many` removes all matching records). -/
theorem wishlist_add_remove (s : DB) (w : WishlistIn) (now : Nat)
    (hv : isValidOid w.product_id = true) (r1 : StatusResp) (s1 : DB)
    (h1 : add_wishlist (some s) w now = .ok (r1, s1))
    (r2 : StatusResp) (s2 : DB)
    (h2 : remove_wishlist (some s1) w.product_id = .ok (r2, s2)) :
    s2.wishlist.filter (fun r => r.product_id == oidOf w.product_id) = [] := by
  have e1 : s1 = { s with wishlist := s.wishlist ++ [⟨oidOf w.product_id, w.user_email, now⟩] } := by
    have := h1
    simp [add_wishlist, hv] at this
    exact this.2.symm
  have e2 : s2 = { s1 with wishlist := s1.wishlist.filter (fun r => !(r.product_id == oidOf w.product_id)) } := by
    have := h2
    simp [remove_wishlist, hv] at this
    exact this.2.symm
  subst e1 e2
  simp [List.filter_filter]

/-- Witness for C7 at a concrete store and a concrete product id. -/
theorem wishlist_add_remove_witness :
    wlFin.wishlist.filter (fun r => r.product_id == oidOf wlIn.product_id) = [] :=
  wishlist_add_remove exDB wlIn 5 (by decide) ⟨"added"⟩ wlMid (by rfl)
    ⟨"removed"⟩ wlFin (by rfl)

/-- C10: a query whose extracted budget parses to 0.0 is treated as
having no budget at all: the budget filter is skipped and the chat call
answers exactly as with no extracted budget (so no budget reason). -/
theorem chat_zero_budget (s : DB) (sid q : String) (now : Nat)
    (h : extractBudget q = some 0) :
    applyBudget (extractBudget q) (chatCandidates s q) = chatCandidates s q ∧
    chat_handler (some s) sid q now = .ok (chatGiven s sid q none now) := by
  constructor
  · rw [h]
    simp [applyBudget]
  · simp [chat_handler, h, chatGiven, applyBudget, chatReasons]

/-- Witness for C10 at the concrete query containing `$00`. -/
theorem chat_zero_budget_witness :
    chat_handler (some exDB) "s1" "$00" 7 = .ok (chatGiven exDB "s1" "$00" none 7) :=
  (chat_zero_budget exDB "s1" "$00" 7 (by decide)).2

/-- Every message of the store has a role drawn from `user`/`assistant`. -/
theorem applyOp_roles (s : DB) (op : Op)
    (h : (s.messages.all (fun m => roleOk m.role)) = true) :
    ((applyOp s op).messages.all (fun m => roleOk m.role)) = true := by
  cases op with
  | opCreateSession p now nid =>
    simpa [applyOp, stateAfter, create_session] using h
  | opPostMessage m now =>
    by_cases hr : roleOk m.role = true
    · simp [applyOp, hr, stateAfter, post_message, List.all_append, h]
    · simpa [applyOp, hr] using h
  | opAddWishlist w now =>
    by_cases hv : isValidOid w.product_id = true
    · simpa [applyOp, stateAfter, add_wishlist, hv] using h
    · simpa [applyOp, stateAfter, add_wishlist, hv] using h
  | opRemoveWishlist pid =>
    by_cases hv : isValidOid pid = true
    · simpa [applyOp, stateAfter, remove_wishlist, hv] using h
    · simpa [applyOp, stateAfter, remove_wishlist, hv] using h
  | opAddCart c now =>
    by_cases hv : isValidOid c.product_id = true
    · simpa [applyOp, stateAfter, add_cart, hv] using h
    · simpa [applyOp, stateAfter, add_cart, hv] using h
  | opChat sid q now =>
    simp [applyOp, stateAfter, chat_handler, chatGiven, List.all_append, roleOk]
    intro x hx
    simpa [roleOk] using List.all_eq_true.mp h x hx

/-- Running any operation sequence preserves the role invariant. -/
theorem runOps_roles (ops : List Op) (s : DB)
    (h : (s.messages.all (fun m => roleOk m.role)) = true) :
    ((runOps s ops).messages.all (fun m => roleOk m.role)) = true := by
  induction ops generalizing s with
  | nil => simpa [runOps] using h
  | cons op rest ih =>
    simpa [runOps, List.foldl_cons] using ih (applyOp s op) (applyOp_roles s op h)

/-- C9: after every sequence of operations starting from the empty
store, every message in the message collection has role `user` or
`assistant` (the post-message endpoint validates the role pattern; the
chat endpoint writes the two literals). -/
theorem message_roles_invariant (ops : List Op) :
    ((runOps emptyDB ops).messages.all
      (fun m => m.role == "user" || m.role == "assistant")) = true := by
  simpa [roleOk] using runOps_roles ops emptyDB (by decide)

/-- C3: the chat candidate set is the text-matching products limited to
8; when no product matches, it is instead the 5 highest-rated products
overall, before any budget filtering: the candidates together with some
remainder permute the whole collection, and every remainder product
rates no higher than every candidate. -/
theorem chat_candidate_sets (s : DB) (q : String) :
    (s.products.filter (textMatch q) ≠ [] →
      chatCandidates s q = (s.products.filter (textMatch q)).take 8 ∧
      (chatCandidates s q).length ≤ 8) ∧
    (s.products.filter (textMatch q) = [] →
      chatCandidates s q = (sortRatingDesc s.products).take 5 ∧
      ∃ rest, s.products.Perm (chatCandidates s q ++ rest) ∧
        ∀ p ∈ chatCandidates s q, ∀ r ∈ rest, r.rating ≤ p.rating) := by
  constructor
  · intro hne
    have hE : ((s.products.filter (textMatch q)).take 8).isEmpty = false := by
      simp [List.isEmpty_eq_false, List.take_eq_nil_iff, hne]
    have hcc : chatCandidates s q = (s.products.filter (textMatch q)).take 8 := by
      simp [chatCandidates, hE]
    exact ⟨hcc, by rw [hcc]; exact List.length_take_le 8 _⟩
  · intro hnil
    have hE : ((s.products.filter (textMatch q)).take 8).isEmpty = true := by
      rw [List.isEmpty_iff, List.take_eq_nil_iff]
      exact Or.inr hnil
    have hcc : chatCandidates s q = (sortRatingDesc s.products).take 5 := by
      simp [chatCandidates, hE]
    refine ⟨hcc, (sortRatingDesc s.products).drop 5, ?_, ?_⟩
    · rw [hcc, List.take_append_drop]
      exact (List.perm_insertionSort ratingGeRel s.products).symm
    · intro p hp r hr
      rw [hcc] at hp
      have hsorted : (sortRatingDesc s.products).Pairwise ratingGeRel :=
        List.sorted_insertionSort ratingGeRel s.products
      have hsplit := (List.take_append_drop 5 (sortRatingDesc s.products)).symm
      rw [hsplit] at hsorted
      exact (List.pairwise_append.mp hsorted).2.2 p hp r hr

/-- Shifting a match position across a cons cell. -/
theorem dollarAt_cons_succ (c : Char) (t : List Char) (i : Nat) :
    dollarAt (c :: t) (i + 1) ↔ dollarAt t i := by
  simp [dollarAt, List.getElem?_cons_succ, List.drop_succ_cons]

/-- Shifting the captured digits across a cons cell. -/
theorem capturedDigits_cons_succ (c : Char) (t : List Char) (i : Nat) :
    capturedDigits (c :: t) (i + 1) = capturedDigits t i := by
  simp [capturedDigits, List.drop_succ_cons]

/-- The match condition at position zero of a cons cell. -/
theorem dollarAt_cons_zero (c : Char) (t : List Char) :
    dollarAt (c :: t) 0 ↔ (c = '$' ∧ 2 ≤ (t.takeWhile Char.isDigit).length) := by
  simp [dollarAt]

/-- The scan condition of `budgetDigits` agrees with the position-zero
match predicate (the capture being cut at five digits does not change
whether at least two digits follow). -/
theorem budget_cond_eq (c : Char) (t : List Char) :
    (c == '$' && decide (2 ≤ ((t.takeWhile Char.isDigit).take 5).length)) =
      decide (dollarAt (c :: t) 0) := by
  by_cases h1 : c = '$' <;> by_cases h2 : 2 ≤ (t.takeWhile Char.isDigit).length <;>
    simp [dollarAt_cons_zero, h1, h2, List.length_take, Nat.le_min]

/-- Unfolding the scan one step. -/
theorem budgetDigits_cons (c : Char) (t : List Char) :
    budgetDigits (c :: t) =
      if c == '$' && decide (2 ≤ ((t.takeWhile Char.isDigit).take 5).length)
      then some ((t.takeWhile Char.isDigit).take 5) else budgetDigits t := rfl

/-- The left-to-right scan of `budgetDigits` returns the capture at the
first (smallest) position where the regex matches. -/
theorem budgetDigits_eq_find (cs : List Char) :
    budgetDigits cs =
      ((List.range cs.length).find? (fun i => decide (dollarAt cs i))).map
        (capturedDigits cs) := by
  induction cs with
  | nil => rfl
  | cons c t ih =>
    by_cases hd : dollarAt (c :: t) 0
    · have hcond : (c == '$' && decide (2 ≤ ((t.takeWhile Char.isDigit).take 5).length)) = true := by
        rw [budget_cond_eq]; exact decide_eq_true hd
      have hL : budgetDigits (c :: t) = some ((t.takeWhile Char.isDigit).take 5) := by
        rw [budgetDigits_cons, if_pos hcond]
      have hR : (List.range (c :: t).length).find? (fun i => decide (dollarAt (c :: t) i)) = some 0 := by
        rw [List.length_cons, List.range_succ_eq_map]
        exact List.find?_cons_of_pos _ (by simpa using hd)
      rw [hL, hR]
      simp [capturedDigits]
    · have hcond : (c == '$' && decide (2 ≤ ((t.takeWhile Char.isDigit).take 5).length)) = false := by
        rw [budget_cond_eq]; exact decide_eq_false hd
      have hL : budgetDigits (c :: t) = budgetDigits t := by
        have hnc : ¬((c == '$' && decide (2 ≤ ((t.takeWhile Char.isDigit).take 5).length)) = true) := by
          rw [hcond]; exact Bool.false_ne_true
        rw [budgetDigits_cons, if_neg hnc]
      have hp : ((fun i => decide (dollarAt (c :: t) i)) ∘ Nat.succ) =
          (fun i => decide (dollarAt t i)) := by
        funext i
        simp [Function.comp, decide_eq_decide, dollarAt_cons_succ]
      have hc2 : ((capturedDigits (c :: t)) ∘ Nat.succ) = capturedDigits t := by
        funext i
        simp [Function.comp, capturedDigits_cons_succ]
      rw [hL, ih, List.length_cons, List.range_succ_eq_map,
        List.find?_cons_of_neg _ (by simpa using hd), List.find?_map,
        Option.map_map, hp, hc2]

/-- C2: the extracted budget of the chat endpoint is, for every query
string, exactly the spec-side description — strip commas, find the
first position matching `$` followed by 2 to 5 digits, parse the
captured digits as a number, and `none` when no position matches — and
on the query `headphones under $200` it is 200. -/
theorem chat_budget_extraction :
    (∀ q : String, extractBudget q = specBudget q) ∧
    extractBudget "headphones under $200" = some 200 := by
  constructor
  · intro q
    unfold extractBudget specBudget
    rw [budgetDigits_eq_find, Option.map_map]
    rfl
  · decide

/-- C1 counterexample: the query `$00` extracts the budget 0.0, the
pre-filter set holds a product fitting that budget (price 0), yet the
result set after the budget step still holds a product priced above the
budget, because `if budget:` treats 0.0 as no budget at all. -/
theorem chat_budget_claim_cex :
    extractBudget "$00" = some 0 ∧
    prodAlpha ∈ chatCandidates exDB "$00" ∧ prodAlpha.price ≤ 0 ∧
    prodBeta ∈ chatAfterBudget exDB "$00" ∧ ¬ prodBeta.price ≤ 0 := by decide

/-- C1 (amended): for every query from which a nonzero budget was
extracted, the result set after the budget step contains only products
priced at or below the budget whenever some pre-filter product fits the
budget, and equals the pre-filter set whenever none does. -/
theorem chat_budget_filter (s : DB) (q : String) (b : ℚ)
    (hb : extractBudget q = some b) (hnz : ¬ b = 0) :
    ((∃ p, p ∈ chatCandidates s q ∧ p.price ≤ b) →
      ∀ p, p ∈ chatAfterBudget s q → p.price ≤ b) ∧
    ((∀ p, p ∈ chatCandidates s q → ¬ p.price ≤ b) →
      chatAfterBudget s q = chatCandidates s q) := by
  have hstep : chatAfterBudget s q =
      (let under := (chatCandidates s q).filter (fun p => decide (p.price ≤ b))
       if under.isEmpty then chatCandidates s q else under) := by
    rw [chatAfterBudget, hb]
    simp only [applyBudget, if_neg hnz]
  constructor
  · rintro ⟨p, hp, hple⟩ r hr
    have hmem : p ∈ (chatCandidates s q).filter (fun x => decide (x.price ≤ b)) :=
      List.mem_filter.mpr ⟨hp, by simpa using hple⟩
    have hne : ((chatCandidates s q).filter (fun x => decide (x.price ≤ b))).isEmpty = false := by
      rw [List.isEmpty_eq_false]
      exact List.ne_nil_of_mem hmem
    rw [hstep] at hr
    simp only [hne, Bool.false_eq_true, if_false] at hr
    exact of_decide_eq_true (List.mem_filter.mp hr).2
  · intro hall
    have hnil : (chatCandidates s q).filter (fun x => decide (x.price ≤ b)) = [] := by
      rw [List.filter_eq_nil_iff]
      intro a ha
      simpa using hall a ha
    rw [hstep]
    simp [hnil]

/-- Witness for the amended C1 at a concrete store and query. -/
theorem chat_budget_filter_witness : prodBeta.price ≤ 150 :=
  (chat_budget_filter exDB "under $150" 150 (by decide) (by decide)).1
    (by decide) prodBeta (by decide)
